import Mathlib

/-!
Shallow embedding of `src/main.rs` of the josephsonvis repository
(Josephson visualizer: file ingestion, layer store, view state, plot render pass).

Modelling conventions:
* `f64` values are modelled by `ℚ`.  No floating-point arithmetic is ever
  performed by the program on parsed values (they are only stored and copied
  into plot points), so exact rationals are a faithful model of everything the
  claims observe; `parseFloat` below models `str::parse::<f64>` on the plain
  decimal grammar (sign, digits, optional fraction, optional exponent).  The
  special spellings `inf`/`infinity`/`nan` accepted by Rust are treated as
  invalid here; no claim involves them.
* A Rust panic (an `unwrap` failure, an out-of-bounds index, or an integer
  underflow in a debug build) aborts the whole `update` pass and the process;
  it is modelled by `Option`, with `none` = panic.  A `none` result means no
  post-state is observable at all.
* Paths are modelled by their final component (the file name), which is the
  only part of a path the program inspects (`path.file_name()`).
* The `dropped_files` queue and the egui widgets are event plumbing; the
  handlers they trigger are modelled as explicit functions on the state.
-/

/-! ### String splitting, mirroring Rust `str::split` / `split_whitespace` -/

/-- Splits a character list at every character satisfying `p`, keeping empty
pieces, exactly like Rust `str::split`: `"a\nb\n"` gives `["a","b",""]` and
`""` gives `[""]`. `acc` holds the (reversed) current piece. -/
def splitListAux (p : Char → Bool) : List Char → List Char → List (List Char)
  | [], acc => [acc.reverse]
  | c :: cs, acc =>
    if p c then acc.reverse :: splitListAux p cs []
    else splitListAux p cs (c :: acc)

/-- Rust `str::split(pred)`: split on every matching character, keeping empty
pieces (so a trailing separator yields a trailing `""`). -/
def splitPred (p : Char → Bool) (s : String) : List String :=
  (splitListAux p s.data []).map (fun l => String.mk l)

/-- Rust `sol.split('\n')` from main.rs lines 144 and 244. -/
def splitLines (s : String) : List String :=
  splitPred (fun c => c == '\n') s

/-- ASCII whitespace as in Rust `char::is_ascii_whitespace`
(space, tab, newline, carriage return, form feed). -/
def isAsciiWs (c : Char) : Bool :=
  c == ' ' || c == '\t' || c == '\n' || c == '\r' || c == '\x0c'

/-- Rust `str::split_whitespace` / `split_ascii_whitespace` (main.rs lines
147, 149, 154, 247, 249, 254): split on whitespace runs, dropping empty
tokens.  The two Rust variants agree on the ASCII text this program reads;
both are modelled by this one function. -/
def splitWs (s : String) : List String :=
  (splitPred isAsciiWs s).filter (fun t => !t.isEmpty)

/-- Rust `str::trim_end_matches(',')` (main.rs lines 148, 150, 248, 250):
removes every trailing comma. -/
def trimEndCommas (s : String) : String :=
  String.mk (s.data.reverse.dropWhile (fun c => c == ',')).reverse

/-- One step of `str::trim_end_matches(".DAT")`: strips a single trailing
`".DAT"` when present. -/
def stripDatOnce (cs : List Char) : Option (List Char) :=
  match cs.reverse with
  | 'T' :: 'A' :: 'D' :: '.' :: rest => some rest.reverse
  | _ => none

/-- Fuelled iteration of `stripDatOnce`; the fuel `s.length` suffices since
each step shortens the list by 4. -/
def trimEndDatAux : Nat → List Char → List Char
  | 0, cs => cs
  | n + 1, cs =>
    match stripDatOnce cs with
    | some cs2 => trimEndDatAux n cs2
    | none => cs

/-- Rust `str::trim_end_matches(".DAT")` (main.rs lines 166, 267): removes
every trailing occurrence of `".DAT"`. -/
def trimEndDat (s : String) : String :=
  String.mk (trimEndDatAux s.data.length s.data)

/-! ### Float parsing, modelling `str::parse::<f64>` -/

/-- Numeric value of a digit string: `['1','2'] ↦ 12`. -/
def digitsToNat (ds : List Char) : Nat :=
  ds.foldl (fun a c => a * 10 + (c.toNat - 48)) 0

/-- Builds the rational `±num / den` in reduced form directly through the
`Rat.mk'` constructor (`neg` gives the sign).  Core `Rat` arithmetic is
`@[irreducible]`, so the embedding constructs its values this way to keep
every definition evaluable; `mkRatSM_eq` below proves the value is the
expected quotient. -/
def mkRatSM (neg : Bool) (num den : Nat) : ℚ :=
  if hd : den = 0 then 0
  else
    let g := Nat.gcd num den
    have hg : 0 < g := Nat.gcd_pos_of_pos_right num (Nat.pos_of_ne_zero hd)
    Rat.mk' (if neg then -((num / g : Nat) : Int) else ((num / g : Nat) : Int))
      (den / g)
      (Nat.div_pos (Nat.le_of_dvd (Nat.pos_of_ne_zero hd)
        (Nat.gcd_dvd_right num den)) hg).ne'
      (by cases neg <;>
        simpa using Nat.coprime_div_gcd_div_gcd hg)

/-- Model of Rust `str::parse::<f64>` (main.rs lines 157-159, 257-259) on the
decimal grammar `Sign? (Digit+ | Digit+ . Digit* | Digit* . Digit+) Exp?`,
`Exp ::= (e|E) Sign? Digit+`, evaluated exactly in `ℚ`: the value is
`± digits(ip ++ fp) * 10^±e / 10^|fp|`, assembled by `mkRatSM`.  Anything
outside this grammar (including `inf` and `nan`, which no claim exercises) is
`none`, matching Rust's `Err` — which the program turns into a panic via
`unwrap`. -/
def parseFloat (s : String) : Option ℚ :=
  let step1 : Bool × List Char :=
    match s.data with
    | '+' :: r => (false, r)
    | '-' :: r => (true, r)
    | r => (false, r)
  let neg := step1.1
  let afterSign := step1.2
  let ipSplit := afterSign.span Char.isDigit
  let ip := ipSplit.1
  let fpSplit : List Char × List Char :=
    match ipSplit.2 with
    | '.' :: r => r.span Char.isDigit
    | r => ([], r)
  let fp := fpSplit.1
  let hadDot : Bool := match ipSplit.2 with | '.' :: _ => true | _ => false
  let rest := if hadDot then fpSplit.2 else ipSplit.2
  if ip.isEmpty && fp.isEmpty then none
  else
    match rest with
    | [] => some (mkRatSM neg (digitsToNat (ip ++ fp)) (10 ^ fp.length))
    | c :: r =>
      if c == 'e' || c == 'E' then
        let estep : Bool × List Char :=
          match r with
          | '+' :: r2 => (false, r2)
          | '-' :: r2 => (true, r2)
          | r2 => (false, r2)
        let edSplit := estep.2.span Char.isDigit
        if edSplit.1.isEmpty || !edSplit.2.isEmpty then none
        else
          let e := digitsToNat edSplit.1
          if estep.1 then
            some (mkRatSM neg (digitsToNat (ip ++ fp)) (10 ^ (fp.length + e)))
          else
            some (mkRatSM neg (digitsToNat (ip ++ fp) * 10 ^ e) (10 ^ fp.length))
      else none

/-! ### The application state (struct `MyApp`, main.rs lines 52-63) -/

/-- One parsed data point `(x, y, y')` (main.rs line 56 comment). -/
abbrev Sample : Type := ℚ × ℚ × ℚ

/-- The two radio modes (enum `LineMode`, main.rs lines 40-44); the spec calls
`Normal` the Value/Flux mode and `Derivative` the Field mode. -/
inductive LineMode where
  | Normal
  | Derivative
deriving DecidableEq

/-- The mutable application state, fields as in struct `MyApp` (main.rs lines
52-63).  `dropped_files` is omitted: it is the per-frame event queue, modelled
as the explicit argument of `ingestDropped`. -/
structure MyApp where
  picked_path : Option String
  points : List (List Sample)
  solutions_count : Nat
  is_visible : List Bool
  line_mode : LineMode
  should_reset_plot : Bool
  layer_names : List String
deriving DecidableEq

/-- The `Default` state (main.rs line 36 `Box::<MyApp>::default()`): empty
store, `LineMode::Normal`, no pending reset, no picked path. -/
def initApp : MyApp :=
  { picked_path := none
    points := []
    solutions_count := 0
    is_visible := []
    line_mode := LineMode.Normal
    should_reset_plot := false
    layer_names := [] }

/-! ### Parsing one line and the ingestion loops -/

/-- Body of one loop iteration, main.rs lines 154-160 / 254-260: split the
line on ASCII whitespace, index tokens 0, 1, 2 (out-of-bounds = panic), parse
each as `f64` (`unwrap`: parse failure = panic). -/
def parseLine (line : String) : Option Sample :=
  let toks := splitWs line
  match toks[0]?, toks[1]?, toks[2]? with
  | some a, some b, some c =>
    match parseFloat a, parseFloat b, parseFloat c with
    | some x, some y, some yp => some (x, y, yp)
    | _, _, _ => none
  | _, _, _ => none

/-- Rust `self.points[idx].push(v)` (main.rs lines 162, 262): indexing panics
when `idx` is out of bounds, otherwise the sample is appended to layer `idx`. -/
def pushSampleAt (pts : List (List Sample)) (idx : Nat) (v : Sample) :
    Option (List (List Sample)) :=
  match pts[idx]? with
  | none => none
  | some layer => some (pts.set idx (layer ++ [v]))

/-- The file-picker data loop, main.rs lines 153-163: for each line of
`lines` (the caller passes `contents[0 .. contents.len()-1]`), parse a sample
and push it into `points[count]`.  Any panic aborts the whole pass. -/
def pickedLoop (count : Nat) (pts : List (List Sample)) :
    List String → Option (List (List Sample))
  | [] => some pts
  | l :: rest =>
    match parseLine l with
    | none => none
    | some sm =>
      match pushSampleAt pts count sm with
      | none => none
      | some pts2 => pickedLoop count pts2 rest

/-- The drag-and-drop data loop, main.rs lines 253-264: identical to
`pickedLoop` except that line 263 also executes `self.is_visible.push(true)`
once per iteration, inside the loop. -/
def dropLoop (count : Nat) (pts : List (List Sample)) (vis : List Bool) :
    List String → Option (List (List Sample) × List Bool)
  | [] => some (pts, vis)
  | l :: rest =>
    match parseLine l with
    | none => none
    | some sm =>
      match pushSampleAt pts count sm with
      | none => none
      | some pts2 => dropLoop count pts2 (vis ++ [true]) rest

/-- File-picker ingestion, main.rs lines 140-174, one `update` pass.
`readResult` models `fs::read_to_string(picked_path)`: `none` = I/O error
(the code then does nothing at all), `some sol` = the file's text.
Steps, in source order: split on newlines; `contents.remove(0)` (panics on an
empty vector — unreachable, a split is never empty); index `contents[0]` for
the parameter line (panics when there is no second line); index its
whitespace tokens 17 and 20 (panics when fewer than 21 tokens) and strip
trailing commas to get `he` and `gamma`; push a fresh empty layer; run the
data loop over `contents[0 .. len-1]` — note this starts at the parameter
line itself and excludes only the single final split element; then push the
display name and one `true` visibility flag, clear `picked_path`, and
increment `solutions_count`. -/
def ingestPicked (s : MyApp) (readResult : Option String) : Option MyApp :=
  match s.picked_path with
  | none => some s
  | some picked_path =>
    match readResult with
    | none => some s
    | some sol =>
      match splitLines sol with
      | [] => none
      | _hdr :: contents =>
        match contents[0]? with
        | none => none
        | some paramLine =>
          match (splitWs paramLine)[17]?, (splitWs paramLine)[20]? with
          | some t17, some t20 =>
            let he := trimEndCommas t17
            let gamma := trimEndCommas t20
            match pickedLoop s.solutions_count (s.points ++ [[]]) contents.dropLast with
            | none => none
            | some pts =>
              let flname := trimEndDat picked_path
              some { s with
                points := pts
                layer_names :=
                  s.layer_names ++ [flname ++ " he=" ++ he ++ " gamma=" ++ gamma]
                is_visible := s.is_visible ++ [true]
                picked_path := none
                solutions_count := s.solutions_count + 1 }
          | _, _ => none

/-- One file of a drop event (`egui::DroppedFile`): its optional path, and —
when a path is present — the result of `fs::read_to_string` on it (`none` =
I/O error). -/
structure DroppedFile where
  path : Option String
  content : Option String
deriving DecidableEq

/-- Ingestion of one dropped file, main.rs lines 240-275: same shape as the
picker path, with two differences taken verbatim from the source: the data
loop is `dropLoop` (line 263 pushes a visibility flag per parsed line), and
afterwards line 271 pushes one more `true` flag; line 272 also clears
`picked_path`.  A file with no path, or whose read fails, is skipped with the
state untouched. -/
def ingestOneDropped (s : MyApp) (f : DroppedFile) : Option MyApp :=
  match f.path with
  | none => some s
  | some path =>
    match f.content with
    | none => some s
    | some sol =>
      match splitLines sol with
      | [] => none
      | _hdr :: contents =>
        match contents[0]? with
        | none => none
        | some paramLine =>
          match (splitWs paramLine)[17]?, (splitWs paramLine)[20]? with
          | some t17, some t20 =>
            let he := trimEndCommas t17
            let gamma := trimEndCommas t20
            match dropLoop s.solutions_count (s.points ++ [[]]) s.is_visible
                contents.dropLast with
            | none => none
            | some pv =>
              let flname := trimEndDat path
              some { s with
                points := pv.1
                layer_names :=
                  s.layer_names ++ [flname ++ " he=" ++ he ++ " gamma=" ++ gamma]
                is_visible := pv.2 ++ [true]
                picked_path := none
                solutions_count := s.solutions_count + 1 }
          | _, _ => none

/-- The drop handler, main.rs lines 238-277: each dropped file is ingested in
order; a panic while ingesting one file aborts the whole pass (`none`). -/
def ingestDropped (s : MyApp) : List DroppedFile → Option MyApp
  | [] => some s
  | f :: rest =>
    match ingestOneDropped s f with
    | none => none
    | some s2 => ingestDropped s2 rest

/-! ### Store operations (side panel and File menu) -/

/-- The "X" button handler, main.rs lines 87-93: `Vec::remove` on all three
parallel vectors (each panics when `sol` is out of its bounds) and
`solutions_count -= 1` (underflow panics in a debug build).  `none` = panic. -/
def removeLayer (s : MyApp) (sol : Nat) : Option MyApp :=
  if sol < s.points.length ∧ sol < s.is_visible.length ∧
      sol < s.layer_names.length ∧ 0 < s.solutions_count then
    some { s with
      points := s.points.eraseIdx sol
      is_visible := s.is_visible.eraseIdx sol
      layer_names := s.layer_names.eraseIdx sol
      solutions_count := s.solutions_count - 1 }
  else none

/-- The Hide/Show button handler, main.rs line 85:
`self.is_visible[sol] = !self.is_visible[sol]` (out of bounds = panic). -/
def toggleVisibility (s : MyApp) (sol : Nat) : Option MyApp :=
  match s.is_visible[sol]? with
  | none => none
  | some b => some { s with is_visible := s.is_visible.set sol (!b) }

/-- The File → Clear handler, main.rs lines 111-117: clears all three
parallel vectors and zeroes `solutions_count`. -/
def clearAll (s : MyApp) : MyApp :=
  { s with
    points := []
    solutions_count := 0
    is_visible := []
    layer_names := [] }

/-! ### Mode radios and the render pass -/

/-- A click on one of the two mode radio buttons, main.rs lines 125-138.
egui's `radio_value(&mut v, target, _)` assigns `v = target` when the click
lands on a non-selected radio and leaves `v` alone otherwise — so after any
click `v = target` — and its `Response::clicked()` is `true` for every click,
selected or not.  The source tests `.clicked()` (not `.changed()`), so every
click, including one on the already-active mode, runs
`self.should_reset_plot = true`. -/
def clickModeRadio (s : MyApp) (target : LineMode) : MyApp :=
  { s with line_mode := target, should_reset_plot := true }

/-- The render pass's reading of the reset flag, main.rs lines 185-235: when
`should_reset_plot` is set the plot is shown with `.reset()` and the flag is
cleared (line 210); otherwise the plot is shown as-is and the flag stays
`false`.  Returns (flag observed, post-state). -/
def consumeBoundsReset (s : MyApp) : Bool × MyApp :=
  if s.should_reset_plot then (true, { s with should_reset_plot := false })
  else (false, s)

/-- Projection of one layer's samples into plot points, main.rs lines 193-200
(and identically 219-226): `Normal` (Flux/Value) keeps `(x, y)`, `Derivative`
(Field) keeps `(x, y')`, by one `map` over the samples. -/
def projectLayer (mode : LineMode) (samples : List Sample) : List (ℚ × ℚ) :=
  match mode with
  | LineMode.Normal => samples.map (fun i => (i.1, i.2.1))
  | LineMode.Derivative => samples.map (fun i => (i.1, i.2.2))

/-! ### The color palette (main.rs lines 12-24) -/

/-- An sRGB color, modelling `egui::Color32` by its `(r, g, b)` bytes. -/
abbrev Color32 : Type := Nat × Nat × Nat

/-- The constant `POSSIBLE_COLORS` array, main.rs lines 12-24, with egui's

named constants spelled out as their rgb values. -/
def POSSIBLE_COLORS : List Color32 :=
  [ (255, 0, 0),      -- Color32::RED
    (0, 0, 255),      -- Color32::BLUE
    (144, 238, 144),  -- Color32::LIGHT_GREEN
    (172, 77, 188),   -- Color32::from_rgb(172, 77, 188)
    (173, 216, 230),  -- Color32::LIGHT_BLUE
    (240, 230, 140),  -- Color32::KHAKI
    (118, 77, 188),   -- Color32::from_rgb(118, 77, 188)
    (0, 255, 0),      -- Color32::GREEN
    (255, 128, 128),  -- Color32::LIGHT_RED
    (0, 0, 139),      -- Color32::DARK_BLUE
    (255, 255, 0) ]   -- Color32::YELLOW

/-- The color of the layer at position `sol`, main.rs lines 80, 205, 231:
`POSSIBLE_COLORS[sol % POSSIBLE_COLORS.len()]` — recomputed from the current
position, never stored. -/
def colorFor (sol : Nat) : Color32 :=
  POSSIBLE_COLORS.get ⟨sol % POSSIBLE_COLORS.length, Nat.mod_lt _ (by decide)⟩

/-! ### The spec's parser contract (for comparison with the code) -/

/-- The spec's error taxonomy (§4.1/§7).  No such type exists in the source:
the code has no error channel at all. -/
inductive ParseError where
  | Unreadable
  | MalformedHeader
  | MalformedSample (lineIndex : Nat)
deriving DecidableEq

deriving instance DecidableEq for Except

/-- Modelled from the spec (§4.1 step 3), not from the source: one sample per
data line, failing with `MalformedSample` at the (0-based) index of the first
bad line.  The per-line check (≥ 3 tokens, tokens 0-2 parse as floats) is the
same as the code's, so `parseLine` is reused. -/
def specParseLines (idx : Nat) : List String → Except ParseError (List Sample)
  | [] => Except.ok []
  | l :: rest =>
    match parseLine l with
    | none => Except.error (ParseError.MalformedSample idx)
    | some sm =>
      match specParseLines (idx + 1) rest with
      | Except.error e => Except.error e
      | Except.ok sms => Except.ok (sm :: sms)

/-- Trailing empty elements of a line split, which the spec's step 3 excludes
from iteration. -/
def dropTrailingEmpties (ls : List String) : List String :=
  (ls.reverse.dropWhile (fun t => t.isEmpty)).reverse

/-- Modelled from the spec (§4.1), not from the source: `parse(fileContents)`
returning `Result`.  Discard the first line; require ≥ 21 whitespace tokens on
the parameter line (else `MalformedHeader`); extract tokens 17 and 20 with
trailing commas stripped; parse every remaining line except the trailing
empty element(s) into samples. -/
def specParse (content : String) :
    Except ParseError (List Sample × String × String) :=
  match splitLines content with
  | [] => Except.error ParseError.MalformedHeader
  | _hdr :: rest =>
    match rest with
    | [] => Except.error ParseError.MalformedHeader
    | paramLine :: dataLines =>
      let ptoks := splitWs paramLine
      if ptoks.length < 21 then Except.error ParseError.MalformedHeader
      else
        let he := trimEndCommas (ptoks[17]?.getD "")
        let gamma := trimEndCommas (ptoks[20]?.getD "")
        match specParseLines 0 (dropTrailingEmpties dataLines) with
        | Except.error e => Except.error e
        | Except.ok sms => Except.ok (sms, he, gamma)

/-! ### Concrete inputs used by the counterexamples and witnesses -/

/-- The spec scenario's 21-token parameter line (§8): token 17 is `"3.5,"`,
token 20 is `"0.1,"`. -/
def scenParam : String :=
  "p0 p1 p2 p3 p4 p5 p6 p7 p8 p9 p10 p11 p12 p13 p14 p15 p16 3.5, p18 p19 0.1,"

/-- The spec scenario file (§8): header, parameter line, two data lines, a
trailing blank line. -/
def scenarioContent : String :=
  "HDR\n" ++ scenParam ++ "\n0.0 1.0 0.0\n1.0 1.1 0.05\n\n"

/-- A 21-token parameter line whose leading tokens are themselves numeric (as
in real simulator output, which is the only kind of file the code can ingest
without panicking, since the code's data loop starts at the parameter line). -/
def goodParam : String :=
  "0 1 2 3 4 5 6 7 8 9 10 11 12 13 14 15 16 3.5, 18 19 0.1,"

/-- A well-formed file the code ingests successfully: header, numeric
parameter line, one data line, single terminating newline. -/
def goodContent : String := "HDR\n" ++ goodParam ++ "\n0.0 1.0 0.0\n"

/-- A file whose single data line has only 2 tokens (§8's malformed-sample
scenario). -/
def badContent : String := "HDR\n" ++ goodParam ++ "\n0.0 1.0\n"

/-- A file whose parameter line has only 20 tokens. -/
def shortHeaderParam : String :=
  "p0 p1 p2 p3 p4 p5 p6 p7 p8 p9 p10 p11 p12 p13 p14 p15 p16 p17 p18 p19"

/-- File with the 20-token parameter line. -/
def shortHeaderContent : String := "HDR\n" ++ shortHeaderParam ++ "\n0.0 1.0 0.0\n"

/-- A state in which the user has just picked the file `A.DAT`. -/
def pickState : MyApp := { initApp with picked_path := some "A.DAT" }

/-- Drop event for the well-formed file. -/
def goodDrop : DroppedFile := { path := some "A.DAT", content := some goodContent }

/-- Drop event for the malformed file. -/
def badDrop : DroppedFile := { path := some "B.DAT", content := some badContent }

/-- A store holding two already-loaded layers. -/
def twoLayerState : MyApp :=
  { picked_path := none
    points := [[((0 : ℚ), (1 : ℚ), (2 : ℚ))], [((3 : ℚ), (4 : ℚ), (5 : ℚ))]]
    solutions_count := 2
    is_visible := [true, false]
    line_mode := LineMode.Normal
    should_reset_plot := false
    layer_names := ["a", "b"] }

/-! ### Helper lemmas (shared) -/

/-- Value of `mkRatSM`: it really is the signed quotient `± num / den`. -/
theorem mkRatSM_eq (neg : Bool) (num den : Nat) (hd : den ≠ 0) :
    mkRatSM neg num den = (if neg then (-1 : ℚ) else 1) * (num : ℚ) / (den : ℚ) := by
  have hg : 0 < Nat.gcd num den := Nat.gcd_pos_of_pos_right num (Nat.pos_of_ne_zero hd)
  have hgq : ((Nat.gcd num den : ℚ)) ≠ 0 := Nat.cast_ne_zero.mpr hg.ne'
  have hdq : ((den : ℚ)) ≠ 0 := Nat.cast_ne_zero.mpr hd
  have h1 : ((num / Nat.gcd num den : Nat) : ℚ) = (num : ℚ) / (Nat.gcd num den : ℚ) :=
    Nat.cast_div (Nat.gcd_dvd_left num den) hgq
  have h2 : ((den / Nat.gcd num den : Nat) : ℚ) = (den : ℚ) / (Nat.gcd num den : ℚ) :=
    Nat.cast_div (Nat.gcd_dvd_right num den) hgq
  simp only [mkRatSM]
  rw [dif_neg hd]
  cases neg with
  | false =>
    simp only [if_false, Bool.false_eq_true, Rat.mk'_eq_divInt, Rat.divInt_eq_div,
      Int.cast_natCast, one_mul]
    rw [h1, h2]
    field_simp
  | true =>
    simp only [if_true, Rat.mk'_eq_divInt, Rat.divInt_eq_div, Int.cast_neg,
      Int.cast_natCast]
    rw [h1, h2]
    field_simp
    ring

/-- Entries strictly before the erased index are unmoved. -/
theorem eraseIdx_get_lt {α : Type} (l : List α) : ∀ (i j : Nat), j < i →
    (l.eraseIdx i)[j]? = l[j]? := by
  induction l with
  | nil => intro i j _; rfl
  | cons a as ih =>
    intro i j h
    cases i with
    | zero => exact absurd h (Nat.not_lt_zero j)
    | succ i =>
      cases j with
      | zero => simp only [List.eraseIdx_cons_succ, List.getElem?_cons_zero]
      | succ j =>
        simp only [List.eraseIdx_cons_succ, List.getElem?_cons_succ]
        exact ih i j (Nat.lt_of_succ_lt_succ h)

/-- Entries from the erased index on shift down by one. -/
theorem eraseIdx_get_ge {α : Type} (l : List α) : ∀ (i j : Nat), i ≤ j →
    (l.eraseIdx i)[j]? = l[j + 1]? := by
  induction l with
  | nil => intro i j _; rfl
  | cons a as ih =>
    intro i j h
    cases i with
    | zero => simp only [List.eraseIdx_cons_zero, List.getElem?_cons_succ]
    | succ i =>
      cases j with
      | zero => exact absurd h (Nat.not_succ_le_zero i)
      | succ j =>
        simp only [List.eraseIdx_cons_succ, List.getElem?_cons_succ]
        exact ih i j (Nat.le_of_succ_le_succ h)

/-- Erasing a valid index shortens the list by exactly one. -/
theorem eraseIdx_len {α : Type} (l : List α) : ∀ i, i < l.length →
    (l.eraseIdx i).length + 1 = l.length := by
  induction l with
  | nil => intro i h; exact absurd h (Nat.not_lt_zero i)
  | cons a as ih =>
    intro i h
    cases i with
    | zero => rfl
    | succ i =>
      simp only [List.eraseIdx_cons_succ, List.length_cons]
      rw [ih i (Nat.lt_of_succ_lt_succ h)]

/-- The picker data loop panics whenever any iterated line fails to parse. -/
theorem pickedLoop_eq_none_of_mem (count : Nat) (pts : List (List Sample))
    (lines : List String) (l : String) (hl : l ∈ lines)
    (hbad : parseLine l = none) :
    pickedLoop count pts lines = none := by
  induction lines generalizing pts with
  | nil => cases hl
  | cons a rest ih =>
    rcases List.mem_cons.mp hl with h | h
    · subst h
      simp only [pickedLoop, hbad]
    · cases hpa : parseLine a with
      | none => simp only [pickedLoop, hpa]
      | some sm =>
        cases hps : pushSampleAt pts count sm with
        | none => simp only [pickedLoop, hpa, hps]
        | some pts2 =>
          simp only [pickedLoop, hpa, hps]
          exact ih pts2 h

/-! ### Claim theorems -/

/-- C1 (code bug): dropping the well-formed file `A.DAT` into the empty store
succeeds, yet leaves the three parallel structures with lengths 1, 3, 1 — the
drop handler executes `is_visible.push(true)` once per parsed line inside the
data loop (main.rs line 263) and once more after it (line 271), so the
visible-flags list is two entries longer than the samples and names lists and
the equal-length invariant is violated at an observable point. -/
theorem C1_drop_ingestion_breaks_parallel_lengths :
    (ingestDropped initApp [goodDrop]).map
      (fun s => (s.points.length, s.is_visible.length, s.layer_names.length,
        s.solutions_count)) = some (1, 3, 1, 1) := by
  decide

/-- C2 (code bug): on the spec's scenario file the code panics instead of
producing the 2 samples: the data loop (main.rs line 153) starts at index 0 of
the header-stripped lines — the parameter line itself, whose first token
`"p0"` fails `parse::<f64>().unwrap()` — and it excludes only the last split
element, so the blank line before the terminating newline would also be
indexed.  The spec-faithful parser `specParse` returns exactly the 2 samples
the claim demands, while code ingestion of the same text is a panic. -/
theorem C2_scenario_code_panics_where_spec_gives_two_samples :
    specParse scenarioContent =
      Except.ok ([((0 : ℚ), (1 : ℚ), (0 : ℚ)),
        ((1 : ℚ), (1.1 : ℚ), (0.05 : ℚ))], "3.5", "0.1") ∧
    ingestPicked pickState (some scenarioContent) = none := by
  refine ⟨?_, by decide⟩
  have h : specParse scenarioContent =
      Except.ok ([((0 : ℚ), (1 : ℚ), (0 : ℚ)),
        ((1 : ℚ), mkRatSM false 11 10, mkRatSM false 5 100)], "3.5", "0.1") := by
    decide
  rw [h, mkRatSM_eq false 11 10 (by decide), mkRatSM_eq false 5 100 (by decide)]
  norm_num

/-- C5 counterexample: in the default state (mode `Normal`, flag clear),
clicking the Flux radio — the already-active mode — leaves the mode unchanged
but sets `should_reset_plot`, because the source reacts to `.clicked()`
(true for every click) rather than `.changed()`.  This refutes "invoking
setMode with the currently active mode never sets pendingBoundsReset". -/
theorem C5_counterexample_same_mode_click_sets_reset :
    initApp.line_mode = LineMode.Normal ∧
    initApp.should_reset_plot = false ∧
    (clickModeRadio initApp LineMode.Normal).line_mode = LineMode.Normal ∧
    (clickModeRadio initApp LineMode.Normal).should_reset_plot = true :=
  ⟨rfl, rfl, rfl, rfl⟩

/-- C5 amended: every click on a mode radio button sets `line_mode` to the
clicked mode and sets `should_reset_plot = true` — including a click on the
already-active mode; no other state changes.  (The original claim's second
half, that clicking a different mode switches and sets the flag, is the
special case `s.line_mode ≠ m`.) -/
theorem C5_amended_every_click_sets_mode_and_reset (s : MyApp) (m : LineMode) :
    (clickModeRadio s m).line_mode = m ∧
    (clickModeRadio s m).should_reset_plot = true ∧
    (clickModeRadio s m).points = s.points ∧
    (clickModeRadio s m).is_visible = s.is_visible ∧
    (clickModeRadio s m).layer_names = s.layer_names ∧
    (clickModeRadio s m).solutions_count = s.solutions_count ∧
    (clickModeRadio s m).picked_path = s.picked_path :=
  ⟨rfl, rfl, rfl, rfl, rfl, rfl, rfl⟩

/-- C6: for every layer, projection under `Normal` (the spec's Value/Flux
mode) yields exactly the `(x, y)` pairs of the samples and under `Derivative`
(Field) exactly the `(x, y')` pairs, in the original order and with the same
count — stated as length preservation plus pointwise agreement at every
index. -/
theorem C6_projectLayer_value_and_derivative (samples : List Sample) :
    (projectLayer LineMode.Normal samples).length = samples.length ∧
    (projectLayer LineMode.Derivative samples).length = samples.length ∧
    (∀ i : Nat, (projectLayer LineMode.Normal samples)[i]? =
      Option.map (fun sm => (sm.1, sm.2.1)) samples[i]?) ∧
    (∀ i : Nat, (projectLayer LineMode.Derivative samples)[i]? =
      Option.map (fun sm => (sm.1, sm.2.2)) samples[i]?) := by
  refine ⟨?_, ?_, ?_, ?_⟩ <;> simp [projectLayer, List.getElem?_map]

/-- C8 counterexample: with only a click on the already-selected Field radio
between them — a click that changes no mode — two consecutive render passes
both consume `true`.  The `.clicked()` handler re-arms the flag without any
mode change, refuting "the flag read by the render pass is true at most once
per setMode transition". -/
theorem C8_counterexample_two_true_reads_without_mode_change :
    (consumeBoundsReset (clickModeRadio initApp LineMode.Derivative)).1 = true ∧
    (clickModeRadio (consumeBoundsReset
        (clickModeRadio initApp LineMode.Derivative)).2
      LineMode.Derivative).line_mode =
      (consumeBoundsReset
        (clickModeRadio initApp LineMode.Derivative)).2.line_mode ∧
    (consumeBoundsReset (clickModeRadio (consumeBoundsReset
        (clickModeRadio initApp LineMode.Derivative)).2
      LineMode.Derivative)).1 = true := by
  decide

/-- C8 amended: the render pass that observes the flag clears it, so two
immediately consecutive render passes (with no event handler between them)
never both read `true` — but a radio click between two passes re-arms the
flag even when it changes no mode. -/
theorem C8_amended_consecutive_consume_reads_false (s : MyApp) :
    (consumeBoundsReset s).2.should_reset_plot = false ∧
    (consumeBoundsReset (consumeBoundsReset s).2).1 = false := by
  cases h : s.should_reset_plot <;> simp [consumeBoundsReset, h]

/-- C10: Value-mode projection is independent of the `y'` column and
Derivative-mode projection is independent of the `y` column: layers agreeing
pointwise on `(x, y)` have equal `Normal` projections, and layers agreeing
pointwise on `(x, y')` have equal `Derivative` projections. -/
theorem C10_projection_noninterference (l1 l2 : List Sample) :
    ((∀ i : Nat, Option.map (fun sm => (sm.1, sm.2.1)) l1[i]? =
        Option.map (fun sm => (sm.1, sm.2.1)) l2[i]?) →
      projectLayer LineMode.Normal l1 = projectLayer LineMode.Normal l2) ∧
    ((∀ i : Nat, Option.map (fun sm => (sm.1, sm.2.2)) l1[i]? =
        Option.map (fun sm => (sm.1, sm.2.2)) l2[i]?) →
      projectLayer LineMode.Derivative l1 = projectLayer LineMode.Derivative l2) := by
  constructor <;> intro h <;> apply List.ext_getElem? <;> intro n <;>
    simp only [projectLayer, List.getElem?_map] <;> exact h n

/-- C10 witness: two layers sharing `(x, y)` but with different `y'` values
project identically under `Normal`, and two layers sharing `(x, y')` but with
different `y` values project identically under `Derivative`. -/
theorem C10_witness :
    (projectLayer LineMode.Normal [((1 : ℚ), (2 : ℚ), (3 : ℚ))] =
      projectLayer LineMode.Normal [((1 : ℚ), (2 : ℚ), (4 : ℚ))]) ∧
    (projectLayer LineMode.Derivative [((1 : ℚ), (2 : ℚ), (3 : ℚ))] =
      projectLayer LineMode.Derivative [((1 : ℚ), (5 : ℚ), (3 : ℚ))]) :=
  ⟨(C10_projection_noninterference _ _).1
      (fun i => by match i with | 0 => rfl | n + 1 => rfl),
    (C10_projection_noninterference _ _).2
      (fun i => by match i with | 0 => rfl | n + 1 => rfl)⟩

/-- C3 counterexample: dropping the malformed file `B.DAT` (its data line has
2 tokens) together with the well-formed `A.DAT` panics the whole update —
`line[2]` is an out-of-bounds index inside `unwrap`-style code — so `A.DAT`
is never ingested and no store state is observable, refuting "the failure of
one file does not abort ingestion of the other files" and "the store's lists
are left exactly as they were". -/
theorem C3_counterexample_parse_failure_aborts_whole_drop_batch :
    ingestDropped initApp [badDrop, goodDrop] = none := by
  decide

/-- C3 amended: a dropped file with no path, or whose read fails, is skipped
with the store untouched and the remaining files are still ingested; but a
file whose parse panics aborts the entire drop batch — no partial layer is
observable because no post-state is observable at all, and the remaining
files are not ingested. -/
theorem C3_amended_read_failures_skip_parse_failures_abort :
    (∀ (s : MyApp) (f : DroppedFile) (rest : List DroppedFile),
      f.path = none ∨ f.content = none →
      ingestDropped s (f :: rest) = ingestDropped s rest) ∧
    (∀ (s : MyApp) (f : DroppedFile) (rest : List DroppedFile),
      ingestOneDropped s f = none → ingestDropped s (f :: rest) = none) := by
  constructor
  · intro s f rest h
    have hone : ingestOneDropped s f = some s := by
      rcases f with ⟨fp, fc⟩
      rcases h with h | h
      · cases fp with
        | none => rfl
        | some p => simp at h
      · cases fc with
        | none =>
          cases fp with
          | none => rfl
          | some p => rfl
        | some c => simp at h
    simp only [ingestDropped, hone]
  · intro s f rest h
    simp only [ingestDropped, h]

/-- C3 amended witness: a pathless drop is skipped, and the drop of the
malformed `B.DAT` alone aborts. -/
theorem C3_amended_witness :
    ingestDropped initApp [{ path := none, content := none }] =
      ingestDropped initApp [] ∧
    ingestDropped initApp [badDrop] = none :=
  ⟨C3_amended_read_failures_skip_parse_failures_abort.1 initApp
      { path := none, content := none } [] (Or.inl rfl),
    C3_amended_read_failures_skip_parse_failures_abort.2 initApp badDrop []
      (by decide)⟩

/-- C4 counterexample: on a file whose parameter line has 20 tokens the
spec's contract demands the error value `MalformedHeader`, but the code
panics (indexing token 20 of a 20-token split is out of bounds) — in the
embedding, ingestion is `none`, i.e. no error value is ever produced and no
post-state exists, refuting "returns the error value rather than crashing". -/
theorem C4_counterexample_short_header_panics_not_error_value :
    specParse shortHeaderContent = Except.error ParseError.MalformedHeader ∧
    ingestPicked pickState (some shortHeaderContent) = none := by
  exact ⟨by decide, by decide⟩

/-- C4 amended: the code has no error channel; it panics (ingestion is
`none`) whenever the parameter line has fewer than 21 whitespace tokens, and
whenever any line iterated by the data loop — which starts at the parameter
line and stops before the last split element — has fewer than 3 tokens or a
first, second or third token that is not a valid float (`parseLine` is
`none`). -/
theorem C4_amended_code_panics_on_malformed_input :
    (∀ (s : MyApp) (p content hdr pl : String) (rest : List String),
      s.picked_path = some p →
      splitLines content = hdr :: pl :: rest →
      (splitWs pl).length < 21 →
      ingestPicked s (some content) = none) ∧
    (∀ (s : MyApp) (p content hdr pl : String) (rest : List String) (l : String),
      s.picked_path = some p →
      splitLines content = hdr :: pl :: rest →
      l ∈ (pl :: rest).dropLast →
      parseLine l = none →
      ingestPicked s (some content) = none) := by
  constructor
  · intro s p content hdr pl rest hp hsplit hlen
    have h20 : (splitWs pl)[20]? = none := by
      rw [List.getElem?_eq_none]
      omega
    cases h17 : (splitWs pl)[17]? with
    | none =>
      simp only [ingestPicked, hp, hsplit, List.getElem?_cons_zero, h17, h20]
    | some t17 =>
      simp only [ingestPicked, hp, hsplit, List.getElem?_cons_zero, h17, h20]
  · intro s p content hdr pl rest l hp hsplit hl hbad
    have hloop : ∀ pts, pickedLoop s.solutions_count pts (pl :: rest).dropLast = none :=
      fun pts => pickedLoop_eq_none_of_mem s.solutions_count pts _ l hl hbad
    cases h17 : (splitWs pl)[17]? with
    | none =>
      simp only [ingestPicked, hp, hsplit, List.getElem?_cons_zero, h17]
    | some t17 =>
      cases h20 : (splitWs pl)[20]? with
      | none =>
        simp only [ingestPicked, hp, hsplit, List.getElem?_cons_zero, h17, h20]
      | some t20 =>
        simp only [ingestPicked, hp, hsplit, List.getElem?_cons_zero, h17, h20, hloop]

/-- C4 amended witness: the 20-token header file and the 2-token data-line
file both make picker ingestion panic. -/
theorem C4_amended_witness :
    ingestPicked pickState (some shortHeaderContent) = none ∧
    ingestPicked pickState (some badContent) = none :=
  ⟨C4_amended_code_panics_on_malformed_input.1 pickState "A.DAT" shortHeaderContent
      "HDR" shortHeaderParam ["0.0 1.0 0.0", ""] rfl (by decide) (by decide),
    C4_amended_code_panics_on_malformed_input.2 pickState "A.DAT" badContent
      "HDR" goodParam ["0.0 1.0", ""] "0.0 1.0" rfl (by decide) (by decide)
      (by decide)⟩

/-- C7: removing a valid index from a well-formed store (three lists of
length `solutions_count`) succeeds, decreases the count and all three list
lengths by exactly one, keeps the layers before the index in place, shifts
every later layer down by exactly one position in all three lists without
reordering, and the rendered color of any layer is always recomputed from its
current position as `POSSIBLE_COLORS[position % len]` — so each shifted layer
takes the palette color of its new index. -/
theorem C7_removeLayer_decrements_and_shifts (s : MyApp) (i : Nat)
    (hp : s.points.length = s.solutions_count)
    (hv : s.is_visible.length = s.solutions_count)
    (hn : s.layer_names.length = s.solutions_count)
    (hi : i < s.solutions_count) :
    ∃ s2, removeLayer s i = some s2 ∧
      s2.solutions_count + 1 = s.solutions_count ∧
      s2.points.length + 1 = s.points.length ∧
      s2.is_visible.length + 1 = s.is_visible.length ∧
      s2.layer_names.length + 1 = s.layer_names.length ∧
      (∀ j, j < i →
        s2.points[j]? = s.points[j]? ∧ s2.is_visible[j]? = s.is_visible[j]? ∧
          s2.layer_names[j]? = s.layer_names[j]?) ∧
      (∀ j, i ≤ j →
        s2.points[j]? = s.points[j + 1]? ∧ s2.is_visible[j]? = s.is_visible[j + 1]? ∧
          s2.layer_names[j]? = s.layer_names[j + 1]?) ∧
      (∀ j, colorFor j = POSSIBLE_COLORS.get
        ⟨j % POSSIBLE_COLORS.length, Nat.mod_lt j (by decide)⟩) := by
  have hcond : i < s.points.length ∧ i < s.is_visible.length ∧
      i < s.layer_names.length ∧ 0 < s.solutions_count := by omega
  refine ⟨{ s with
      points := s.points.eraseIdx i
      is_visible := s.is_visible.eraseIdx i
      layer_names := s.layer_names.eraseIdx i
      solutions_count := s.solutions_count - 1 },
    ?_, ?_, ?_, ?_, ?_, ?_, ?_, ?_⟩
  · simp only [removeLayer, if_pos hcond]
  · show s.solutions_count - 1 + 1 = s.solutions_count
    omega
  · exact eraseIdx_len s.points i (by omega)
  · exact eraseIdx_len s.is_visible i (by omega)
  · exact eraseIdx_len s.layer_names i (by omega)
  · intro j hj
    exact ⟨eraseIdx_get_lt s.points i j hj, eraseIdx_get_lt s.is_visible i j hj,
      eraseIdx_get_lt s.layer_names i j hj⟩
  · intro j hj
    exact ⟨eraseIdx_get_ge s.points i j hj, eraseIdx_get_ge s.is_visible i j hj,
      eraseIdx_get_ge s.layer_names i j hj⟩
  · intro j
    rfl

/-- C7 witness: removing layer 0 from the concrete two-layer store. -/
theorem C7_removeLayer_witness :
    ∃ s2, removeLayer twoLayerState 0 = some s2 ∧
      s2.solutions_count + 1 = twoLayerState.solutions_count ∧
      s2.points.length + 1 = twoLayerState.points.length ∧
      s2.is_visible.length + 1 = twoLayerState.is_visible.length ∧
      s2.layer_names.length + 1 = twoLayerState.layer_names.length ∧
      (∀ j, j < 0 →
        s2.points[j]? = twoLayerState.points[j]? ∧
          s2.is_visible[j]? = twoLayerState.is_visible[j]? ∧
          s2.layer_names[j]? = twoLayerState.layer_names[j]?) ∧
      (∀ j, 0 ≤ j →
        s2.points[j]? = twoLayerState.points[j + 1]? ∧
          s2.is_visible[j]? = twoLayerState.is_visible[j + 1]? ∧
          s2.layer_names[j]? = twoLayerState.layer_names[j + 1]?) ∧
      (∀ j, colorFor j = POSSIBLE_COLORS.get
        ⟨j % POSSIBLE_COLORS.length, Nat.mod_lt j (by decide)⟩) :=
  C7_removeLayer_decrements_and_shifts twoLayerState 0 (by decide) (by decide)
    (by decide) (by decide)

/-- C9: when a file has been picked but reading it fails, the whole update
pass leaves the state untouched — store, mode, reset flag and (crucially)
`picked_path`, so the ingestion attempt recurs on every later pass; and
whenever a pass completes with the state observable, either the picked path
has been cleared (it was absent, or ingestion succeeded and line 171 cleared
it) or the read had failed and the state is exactly the old one. -/
theorem C9_read_failure_noop_path_cleared_only_on_success :
    (∀ s : MyApp, ingestPicked s none = some s) ∧
    (∀ (s : MyApp) (r : Option String) (s2 : MyApp),
      ingestPicked s r = some s2 → s2.picked_path = none ∨ (r = none ∧ s2 = s)) := by
  constructor
  · intro s
    cases hp : s.picked_path with
    | none => simp only [ingestPicked, hp]
    | some p => simp only [ingestPicked, hp]
  · intro s r s2 h
    cases hp : s.picked_path with
    | none =>
      simp only [ingestPicked, hp, Option.some.injEq] at h
      left
      rw [← h, hp]
    | some p =>
      cases r with
      | none =>
        simp only [ingestPicked, hp, Option.some.injEq] at h
        exact Or.inr ⟨rfl, h.symm⟩
      | some content =>
        left
        simp only [ingestPicked, hp] at h
        repeat' split at h
        all_goals
          first
            | exact Option.noConfusion h
            | (injection h with h2; rw [← h2])

/-- C9 witness: the picked-file state with a failed read is returned
unchanged, and satisfies the success-or-retry disjunction. -/
theorem C9_witness :
    ingestPicked pickState none = some pickState ∧
    (pickState.picked_path = none ∨
      ((none : Option String) = none ∧ pickState = pickState)) :=
  ⟨C9_read_failure_noop_path_cleared_only_on_success.1 pickState,
    C9_read_failure_noop_path_cleared_only_on_success.2 pickState none pickState
      (C9_read_failure_noop_path_cleared_only_on_success.1 pickState)⟩
